import Mathlib

/-
  Verification of the Amity-bot admin dashboard and chat widget.

  The repository is a thin client: each page handler issues at most one
  HTTP request and renders the JSON response.  We embed each handler as a
  pure function from an explicit network environment (did the fetch throw,
  was the response ok, did the body parse, what data came back) to the
  resulting component state and emitted effects (requests, toasts,
  redirects), translated directly from the TypeScript source.
-/

namespace AmityBot

/-- A chat display message, `{ role, content }` as used by the chat page. -/
structure Msg where
  role : String
  content : String
deriving DecidableEq, Repr

/-- A value in the JSON body of the chat request: either a string field or
the `[string, string][]` chat-history array. -/
inductive BodyVal where
  | s (v : String)
  | hist (v : List (String × String))
deriving DecidableEq, Repr

/-- The request constructed by `sendChat` in `lib/api`: URL, method, and the
JSON body as an ordered field list, mirroring
`JSON.stringify({ query, session_id, chat_history, role })`. -/
structure ChatRequest where
  url : String
  method : String
  body : List (String × BodyVal)
deriving DecidableEq, Repr

/-- The request a call `sendChat({query, session_id, chat_history, role})`
issues; `role` defaults to `"general"` when the caller omits it. -/
def sendChatRequest (query session_id : String)
    (chat_history : List (String × String)) (role : Option String) : ChatRequest :=
  { url := "http://localhost:8000/chat"
    method := "POST"
    body := [("query", .s query), ("session_id", .s session_id),
             ("chat_history", .hist chat_history),
             ("role", .s (role.getD "general"))] }

/-- The JSON object `sendChat` resolves with; the chat page reads its
`result` field. -/
structure ChatResponse where
  result : String
deriving DecidableEq, Repr

/-- Outcome of one `fetch`: the promise rejected (`netErr`), or a response
arrived with an `ok` flag, a status code, and a body that either parses to
`β` or makes `res.json()` throw (`none`). -/
inductive NetResult (β : Type) where
  | netErr
  | resp (ok : Bool) (status : Nat) (body : Option β)
deriving DecidableEq, Repr

/-- Response handling in `sendChat`: throw when the fetch rejects, throw
`Chat API failed with <status>` when `!res.ok`, throw when `res.json()`
fails, otherwise resolve with the parsed data. -/
def sendChatRun (env : NetResult ChatResponse) : Except String ChatResponse :=
  match env with
  | .netErr => .error "fetch failed"
  | .resp ok status body =>
      if ok then
        match body with
        | some d => .ok d
        | none => .error "json parse failed"
      else .error ("Chat API failed with " ++ toString status)

/-- JavaScript `String.prototype.trim`: drop leading and trailing
whitespace. -/
def jsTrim (s : String) : String :=
  ⟨(((s.data.dropWhile Char.isWhitespace).reverse.dropWhile
      Char.isWhitespace).reverse)⟩

/-- Component state of `ChatPage`: the input box, the displayed messages,
the session id, and the `[query, result]` history array. -/
structure ChatState where
  query : String
  messages : List Msg
  sessionId : String
  history : List (String × String)
deriving DecidableEq, Repr

/-- `handleSend` from the chat page: bail out when the trimmed query is
empty; otherwise append the user message, call `sendChat` with the current
history and role `"general"`, and on success append the bot reply and the
`[query, res.result]` pair (on failure append an error bot message);
finally clear the input.  Returns the new state and the requests issued. -/
def handleSend (st : ChatState) (env : NetResult ChatResponse) :
    ChatState × List ChatRequest :=
  if jsTrim st.query = "" then (st, [])
  else
    let userMessage : Msg := ⟨"user", st.query⟩
    let msgs1 := st.messages ++ [userMessage]
    let req := sendChatRequest st.query st.sessionId st.history (some "general")
    match sendChatRun env with
    | .ok res =>
        ({ st with
            messages := msgs1 ++ [⟨"bot", res.result⟩]
            history := st.history ++ [(st.query, res.result)]
            query := "" }, [req])
    | .error _ =>
        ({ st with
            messages := msgs1 ++ [⟨"bot", "Error from server."⟩]
            query := "" }, [req])

/-- Environment of one session-check call: whether the fetch rejected,
whether the response was ok, and the parsed `role` field of the body
(`none` when `res.json()` throws). -/
structure SessionEnv where
  netErr : Bool
  ok : Bool
  roleField : Option String
deriving DecidableEq, Repr

/-- What a session check does to the page: navigate to `/login` (recording
whether an error toast was shown first), set the role and render the page
content, or die on an uncaught rejection leaving the role `null` (the page
stays on its checking screen). -/
inductive SessionOutcome where
  | redirect (toasted : Bool)
  | render
  | stuck
deriving DecidableEq, Repr

/-- `fetchSession` of `KBUploadPage`: parse the body without looking at the
HTTP status; any throw (fetch or parse) lands in the catch and redirects;
a parsed role other than `"logged_in"` redirects; otherwise render. -/
def fetchSessionKB (env : SessionEnv) : SessionOutcome :=
  if env.netErr then .redirect false
  else
    match env.roleField with
    | none => .redirect false
    | some r => if r = "logged_in" then .render else .redirect false

/-- `checkSession` of `DashboardHome`: no try/catch, so a rejected fetch or
a failing parse is an unhandled rejection (`stuck`); an ok response renders
when the role is `"logged_in"` and redirects otherwise; a non-ok response
shows an error toast and redirects. -/
def checkSessionHome (env : SessionEnv) : SessionOutcome :=
  if env.netErr then .stuck
  else if env.ok then
    match env.roleField with
    | none => .stuck
    | some r => if r = "logged_in" then .render else .redirect false
  else .redirect true

/-- `checkSession` of `DashboardLayout`: same control flow as
`DashboardHome.checkSession` (only the toast text differs). -/
def checkSessionLayout (env : SessionEnv) : SessionOutcome :=
  if env.netErr then .stuck
  else if env.ok then
    match env.roleField with
    | none => .stuck
    | some r => if r = "logged_in" then .render else .redirect false
  else .redirect true

/-- A toast notification from `sonner`: `toast.success` or `toast.error`. -/
inductive Toast where
  | ok (msg : String)
  | err (msg : String)
deriving DecidableEq, Repr

/-- JavaScript `v || d` on an optional string: the default replaces both a
missing value and the empty string (which is falsy). -/
def jsOrStr (v : Option String) (d : String) : String :=
  match v with
  | some s => if s = "" then d else s
  | none => d

/-- A request sent with `fetch` from a form handler: path relative to
`API_BASE`, method, and the `FormData` fields (empty when no body). -/
structure FormRequest where
  path : String
  method : String
  formFields : List (String × String)
deriving DecidableEq, Repr

/-- Effects of one run of a form handler: requests issued, toasts shown,
whether a rejection escaped uncaught, and any navigation target. -/
structure HandlerResult where
  requests : List FormRequest
  toasts : List Toast
  uncaught : Bool
  redirectTo : Option String
deriving DecidableEq, Repr

/-- Environment of the KB upload call: fetch rejection, `ok` flag, and the
parsed `message` field of the error body (outer `none` = parse throws,
inner value = the optional `message` property). -/
structure UploadEnv where
  netErr : Bool
  ok : Bool
  message : Option (Option String)
deriving DecidableEq, Repr

/-- `handleUpload` of `KBUploadPage`: with no file, toast an error and
stop; otherwise POST the file as multipart to `/kb-upload` (no try/catch,
so a rejected fetch is uncaught); toast success on ok, and on non-ok parse
the body and toast the server message or `Unknown error` (an unparseable
body throws uncaught). -/
def handleUpload (file : Option String) (env : UploadEnv) : HandlerResult :=
  match file with
  | none => ⟨[], [.err "Please select a file first."], false, none⟩
  | some f =>
      let req : FormRequest := ⟨"/kb-upload", "POST", [("file", f)]⟩
      if env.netErr then ⟨[req], [], true, none⟩
      else if env.ok then ⟨[req], [.ok "✅ File uploaded and indexed"], false, none⟩
      else
        match env.message with
        | none => ⟨[req], [], true, none⟩
        | some m =>
            ⟨[req], [.err ("❌ Upload failed: " ++ jsOrStr m "Unknown error")],
             false, none⟩

/-- Environment of the reindex call: fetch rejection and the `ok` flag (the
body is never read). -/
structure ReindexEnv where
  netErr : Bool
  ok : Bool
deriving DecidableEq, Repr

/-- `handleReindex` of `KBUploadPage`: POST `/reindex`, success toast on ok
and error toast otherwise; a rejected fetch is uncaught. -/
def handleReindex (env : ReindexEnv) : HandlerResult :=
  let req : FormRequest := ⟨"/reindex", "POST", []⟩
  if env.netErr then ⟨[req], [], true, none⟩
  else if env.ok then ⟨[req], [.ok "✅ Reindexing triggered"], false, none⟩
  else ⟨[req], [.err "❌ Failed to reindex"], false, none⟩

/-- `handleLogout` of `KBUploadPage`: POST `/logout`, then toast success and
navigate to `/login` without ever inspecting the response; a rejected fetch
is uncaught and skips both. -/
def handleLogoutKB (netErr : Bool) : HandlerResult :=
  let req : FormRequest := ⟨"/logout", "POST", []⟩
  if netErr then ⟨[req], [], true, none⟩
  else ⟨[req], [.ok "Logged out"], false, some "/login"⟩

/-- `handleLogout` of `DashboardLayout`: identical control flow. -/
def handleLogoutLayout (netErr : Bool) : HandlerResult :=
  let req : FormRequest := ⟨"/logout", "POST", []⟩
  if netErr then ⟨[req], [], true, none⟩
  else ⟨[req], [.ok "Logged out"], false, some "/login"⟩

/-- Environment of the login call: fetch rejection, `ok` flag, and the
parsed `detail` field of the error body (outer `none` = parse throws). -/
structure LoginEnv where
  netErr : Bool
  ok : Bool
  detail : Option (Option String)
deriving DecidableEq, Repr

/-- `handleLogin` of `LoginPage`: empty username or password toasts an
error and sends nothing; otherwise POST the credentials as `FormData` to
`/login` inside try/catch: ok toasts success and navigates to the
dashboard, non-ok toasts `detail || 'Login failed'`, and any throw (fetch
or parse) toasts `Something went wrong`. -/
def handleLogin (username password : String) (env : LoginEnv) : HandlerResult :=
  if username = "" ∨ password = "" then
    ⟨[], [.err "Please enter username and password"], false, none⟩
  else
    let req : FormRequest :=
      ⟨"/login", "POST", [("username", username), ("password", password)]⟩
    if env.netErr then ⟨[req], [.err "Something went wrong"], false, none⟩
    else if env.ok then
      ⟨[req], [.ok "Login successful"], false, some "/dashboard/kb-upload"⟩
    else
      match env.detail with
      | none => ⟨[req], [.err "Something went wrong"], false, none⟩
      | some d => ⟨[req], [.err (jsOrStr d "Login failed")], false, none⟩

/-- A lead record as accessed by the leads table: `id`, `name`, `status`. -/
structure Lead where
  id : String
  name : String
  status : String
deriving DecidableEq, Repr

/-- A sync-log record as accessed by the sync-logs table: `job_id`,
`status`, `duration`. -/
structure SyncLog where
  job_id : String
  status : String
  duration : String
deriving DecidableEq, Repr

/-- Environment of a bare list fetch (`fetch(...).then(res.json()).then`):
fetch rejection, and the parse outcome (outer `none` = `res.json()` throws;
inner `none` = the body parsed to `null`). The `ok` flag is never read. -/
structure ListFetchEnv (α : Type) where
  netErr : Bool
  parsed : Option (Option (List α))
deriving DecidableEq, Repr

/-- Result of a bare list fetch: the state stored by the setter (`none` =
never called), the toasts shown, and whether a rejection was uncaught. -/
structure ListFetchResult (α : Type) where
  state : Option (List α)
  toasts : List Toast
  uncaught : Bool
deriving DecidableEq, Repr

/-- The `LeadsPage` effect: no catch anywhere, so a rejected fetch or a
failing parse is an unhandled rejection; otherwise store `data || []`. -/
def fetchLeads (env : ListFetchEnv Lead) : ListFetchResult Lead :=
  if env.netErr then ⟨none, [], true⟩
  else
    match env.parsed with
    | none => ⟨none, [], true⟩
    | some d => ⟨some (d.getD []), [], false⟩

/-- The `SyncLogsPage` effect: same shape as the leads fetch. -/
def fetchSyncLogs (env : ListFetchEnv SyncLog) : ListFetchResult SyncLog :=
  if env.netErr then ⟨none, [], true⟩
  else
    match env.parsed with
    | none => ⟨none, [], true⟩
    | some d => ⟨some (d.getD []), [], false⟩

/-- The rows the leads table renders: one `(id, name, status)` cell triple
per record, straight from `leads.map`. -/
def leadsRows (leads : List Lead) : List (String × String × String) :=
  leads.map (fun l => (l.id, l.name, l.status))

/-- The rows the sync-logs table renders: one `(job_id, status, duration)`
cell triple per record, straight from `logs.map`. -/
def syncLogRows (logs : List SyncLog) : List (String × String × String) :=
  logs.map (fun l => (l.job_id, l.status, l.duration))

/-- The service a network call targets: a path on the external backend
(`API_BASE`), or the Groq API reached through `groq-sdk`. -/
inductive Service where
  | backend (path : String)
  | groqApi
deriving DecidableEq, Repr

/-- Every place in the source that issues a network request. -/
inductive CallSite where
  | chatSend
  | leadsList
  | syncLogsList
  | sessionCheckKB
  | sessionCheckHome
  | sessionCheckLayout
  | kbUpload
  | reindex
  | logoutKB
  | logoutLayout
  | login
  | groqChat
deriving DecidableEq, Repr, Fintype

/-- The target of each call site, read off the `fetch` URL (or, for
`groqChat`, the `groq.chat.completions.create` call in
`app/api/chat/route.ts`). -/
def requestTarget : CallSite → Service
  | .chatSend => .backend "/chat"
  | .leadsList => .backend "/leads"
  | .syncLogsList => .backend "/sync-logs"
  | .sessionCheckKB => .backend "/check-session"
  | .sessionCheckHome => .backend "/check-session"
  | .sessionCheckLayout => .backend "/check-session"
  | .kbUpload => .backend "/kb-upload"
  | .reindex => .backend "/reindex"
  | .logoutKB => .backend "/logout"
  | .logoutLayout => .backend "/logout"
  | .login => .backend "/login"
  | .groqChat => .groqApi

/-- The eight endpoints of the external backend API. -/
def backendPaths : List String :=
  ["/chat", "/leads", "/sync-logs", "/kb-upload", "/reindex", "/login",
   "/logout", "/check-session"]

/-- Whether a call site targets one of the eight backend endpoints. -/
def targetsBackend (s : CallSite) : Bool :=
  match requestTarget s with
  | .backend p => backendPaths.contains p
  | .groqApi => false

/-- All call sites of the source, listed. -/
def allCallSites : List CallSite :=
  [.chatSend, .leadsList, .syncLogsList, .sessionCheckKB, .sessionCheckHome,
   .sessionCheckLayout, .kbUpload, .reindex, .logoutKB, .logoutLayout,
   .login, .groqChat]

/-- A Groq completion message: its `content` may be absent. -/
structure GroqMessage where
  content : Option String
deriving DecidableEq, Repr

/-- A Groq completion choice: its `message` may be absent. -/
structure GroqChoice where
  message : Option GroqMessage
deriving DecidableEq, Repr

/-- A Groq chat completion: its `choices` array may be absent. -/
structure Completion where
  choices : Option (List GroqChoice)
deriving DecidableEq, Repr

/-- `chatCompletion.choices?.[0]?.message?.content || ''`: the optional
chain collapsed with the empty string as fallback. -/
def replyOf (c : Completion) : String :=
  jsOrStr (((c.choices.bind List.head?).bind GroqChoice.message).bind
    GroqMessage.content) ""

/-- The parsed request body of the internal chat route: its `messages`
field may be absent. -/
structure RouteBody where
  messages : Option (List Msg)
deriving DecidableEq, Repr

/-- Environment of the internal chat route: the parsed request body
(`none` = `req.json()` throws) and the Groq call outcome (`none` = the SDK
call throws). -/
structure RouteEnv where
  bodyJson : Option RouteBody
  completion : Option Completion
deriving DecidableEq, Repr

/-- Body of the route response: the assistant message or the error. -/
inductive RouteBodyOut where
  | assistant (role content : String)
  | failure (error : String)
deriving DecidableEq, Repr

/-- An HTTP response produced by the route: status and JSON body. -/
structure RouteResponse where
  status : Nat
  body : RouteBodyOut
deriving DecidableEq, Repr

/-- Result of one route invocation: the messages and model passed to the
Groq SDK (`none` when the call never happened) and the response. -/
structure RouteResult where
  groqMessages : Option (List Msg)
  model : Option String
  response : RouteResponse
deriving DecidableEq, Repr

/-- `POST` of `app/api/chat/route.ts`: parse the body (`messages || []`),
map each message to `{role, content}`, call the Groq SDK with model
`mixtral-8x7b-32768`, and answer `{role: 'assistant', content: reply}`;
any throw is caught and answered with status 500 and `{error: 'Chat
failed'}`. -/
def routePOST (env : RouteEnv) : RouteResult :=
  match env.bodyJson with
  | none => ⟨none, none, ⟨500, .failure "Chat failed"⟩⟩
  | some b =>
      let messages := b.messages.getD []
      let groqMessages := messages.map (fun m => (⟨m.role, m.content⟩ : Msg))
      match env.completion with
      | none =>
          ⟨some groqMessages, some "mixtral-8x7b-32768",
           ⟨500, .failure "Chat failed"⟩⟩
      | some c =>
          ⟨some groqMessages, some "mixtral-8x7b-32768",
           ⟨200, .assistant "assistant" (replyOf c)⟩⟩

end AmityBot

namespace AmityBot

/-- C1: for a query that is non-empty after trimming, `handleSend` appends
the user message `{role := "user", content := query}` to the display, issues
exactly the chat request built from the current query, session id and
history, and on success appends the returned reply as a bot message and the
`[query, result]` pair to the history that the next call passes as
`chat_history`. -/
theorem chat_send_flow (st : ChatState) (env : NetResult ChatResponse)
    (hq : jsTrim st.query ≠ "") :
    (handleSend st env).2 =
      [sendChatRequest st.query st.sessionId st.history (some "general")] ∧
    (∃ rest, (handleSend st env).1.messages =
      st.messages ++ ⟨"user", st.query⟩ :: rest) ∧
    (∀ r, sendChatRun env = .ok r →
      (handleSend st env).1.messages =
        st.messages ++ [⟨"user", st.query⟩, ⟨"bot", r.result⟩] ∧
      (handleSend st env).1.history = st.history ++ [(st.query, r.result)]) := by
  unfold handleSend
  rw [if_neg hq]
  cases h : sendChatRun env with
  | ok r => simp
  | error e =>
      refine ⟨rfl, ⟨[⟨"bot", "Error from server."⟩], by simp⟩, ?_⟩
      intro r hr
      simp at hr

/-- Witness for C1 at a concrete state and successful response. -/
theorem chat_send_flow_witness :
    (handleSend ⟨"hi", [], "sid", []⟩
        (NetResult.resp true 200 (some ⟨"hello"⟩))).2 =
      [sendChatRequest "hi" "sid" [] (some "general")] :=
  (chat_send_flow ⟨"hi", [], "sid", []⟩
    (NetResult.resp true 200 (some ⟨"hello"⟩)) (by decide)).1

/-- C2: every request `sendChat` builds is a POST to the `/chat` endpoint
whose JSON body has exactly the fields `query`, `session_id`,
`chat_history`, `role` in that order, with `role` defaulting to
`"general"` when omitted; the chat page consumes a successful response by
reading its `result` field into the bot message and the history pair. -/
theorem chat_request_shape (q sid : String) (h : List (String × String))
    (ro : Option String) :
    (sendChatRequest q sid h ro).method = "POST" ∧
    (sendChatRequest q sid h ro).url = "http://localhost:8000/chat" ∧
    (sendChatRequest q sid h ro).body.map Prod.fst =
      ["query", "session_id", "chat_history", "role"] ∧
    (sendChatRequest q sid h ro).body =
      [("query", .s q), ("session_id", .s sid), ("chat_history", .hist h),
       ("role", .s (ro.getD "general"))] ∧
    (sendChatRequest q sid h none).body.getLast? =
      some ("role", .s "general") ∧
    (∀ st env r, sendChatRun env = .ok r → jsTrim st.query ≠ "" →
      (handleSend st env).1.messages.getLast? = some ⟨"bot", r.result⟩ ∧
      (handleSend st env).1.history.getLast? = some (st.query, r.result)) := by
  refine ⟨rfl, rfl, rfl, rfl, rfl, ?_⟩
  intro st env r hok hq
  unfold handleSend
  rw [if_neg hq, hok]
  simp

/-- Witness for C2 at a concrete state and successful response. -/
theorem chat_request_shape_witness :
    (handleSend ⟨"hi", [], "sid", []⟩
        (NetResult.resp true 200 (some ⟨"yo"⟩))).1.messages.getLast? =
      some ⟨"bot", "yo"⟩ :=
  ((chat_request_shape "hi" "sid" [] none).2.2.2.2.2
    ⟨"hi", [], "sid", []⟩ (NetResult.resp true 200 (some ⟨"yo"⟩)) ⟨"yo"⟩
    rfl (by decide)).1

/-- C3 fails as stated: a non-ok `/check-session` response whose body still
parses with role `"logged_in"` makes `KBUploadPage` render instead of
redirecting, because its `fetchSession` never reads `res.ok`. -/
theorem session_gate_counterexample :
    fetchSessionKB ⟨false, false, some "logged_in"⟩ = SessionOutcome.render ∧
    SessionOutcome.render ≠ SessionOutcome.redirect false ∧
    SessionOutcome.render ≠ SessionOutcome.redirect true := by decide

/-- C3 amended: `DashboardHome` (and identically `DashboardLayout`)
redirects on a non-ok response or an ok response whose role is not
`"logged_in"`, renders exactly on ok plus `"logged_in"`, but is left stuck
on its checking screen by an uncaught fetch rejection or parse failure;
`KBUploadPage` ignores the HTTP status entirely: it renders exactly when
the body parses with role `"logged_in"` and redirects in every other
case. -/
theorem session_gate_amended (env : SessionEnv) :
    (fetchSessionKB env = SessionOutcome.render ↔
      env.netErr = false ∧ env.roleField = some "logged_in") ∧
    (fetchSessionKB env ≠ SessionOutcome.render →
      fetchSessionKB env = SessionOutcome.redirect false) ∧
    (checkSessionHome env = SessionOutcome.render ↔
      env.netErr = false ∧ env.ok = true ∧
        env.roleField = some "logged_in") ∧
    (env.netErr = false → env.ok = false →
      checkSessionHome env = SessionOutcome.redirect true) ∧
    (env.netErr = true → checkSessionHome env = SessionOutcome.stuck) ∧
    (env.netErr = false → env.ok = true → env.roleField = none →
      checkSessionHome env = SessionOutcome.stuck) ∧
    (∀ r, env.netErr = false → env.ok = true → env.roleField = some r →
      r ≠ "logged_in" →
      checkSessionHome env = SessionOutcome.redirect false) ∧
    checkSessionLayout env = checkSessionHome env := by
  obtain ⟨ne, ok, rf⟩ := env
  rcases rf with _ | r
  · cases ne <;> cases ok <;>
      simp [fetchSessionKB, checkSessionHome, checkSessionLayout]
  · by_cases hr : r = "logged_in" <;> cases ne <;> cases ok <;>
      simp [fetchSessionKB, checkSessionHome, checkSessionLayout, hr]

/-- Witness for C3 amended: a non-ok response at `DashboardHome` toasts and
redirects. -/
theorem session_gate_amended_witness :
    checkSessionHome ⟨false, false, none⟩ = SessionOutcome.redirect true :=
  (session_gate_amended ⟨false, false, none⟩).2.2.2.1 rfl rfl

/-- C4 fails as stated: the leads fetch has no catch and never toasts; a
rejected fetch is an unhandled rejection that surfaces nothing to the
user. -/
theorem silent_failure_counterexample :
    (fetchLeads ⟨true, none⟩).toasts = [] ∧
    (fetchLeads ⟨true, none⟩).uncaught = true := by decide

/-- C4 amended: the login handler catches every failure and always toasts,
and upload, reindex and session checks toast on non-ok responses (upload
only when the error body parses), but the leads and sync-logs fetches
never surface anything, thrown network errors in the upload, reindex and
logout handlers escape uncaught without a toast, and logout toasts success
without inspecting the response; no handler issues more than one request
(no retry). -/
theorem error_surfacing_amended :
    (∀ env : ListFetchEnv Lead, (fetchLeads env).toasts = []) ∧
    (∀ env : ListFetchEnv SyncLog, (fetchSyncLogs env).toasts = []) ∧
    (∀ u p env, (handleLogin u p env).uncaught = false ∧
      (handleLogin u p env).toasts ≠ [] ∧
      (handleLogin u p env).requests.length ≤ 1) ∧
    (∀ f ok m, (handleUpload (some f) ⟨true, ok, m⟩).toasts = [] ∧
      (handleUpload (some f) ⟨true, ok, m⟩).uncaught = true) ∧
    (∀ f, (handleUpload (some f) ⟨false, false, none⟩).toasts = [] ∧
      (handleUpload (some f) ⟨false, false, none⟩).uncaught = true) ∧
    (∀ file env, (handleUpload file env).requests.length ≤ 1) ∧
    (∀ ok, (handleReindex ⟨false, ok⟩).toasts ≠ [] ∧
      (handleReindex ⟨false, ok⟩).uncaught = false) ∧
    ((handleReindex ⟨true, true⟩).toasts = [] ∧
      (handleReindex ⟨true, false⟩).toasts = [] ∧
      (handleReindex ⟨true, true⟩).uncaught = true) ∧
    ((handleLogoutKB false).toasts = [Toast.ok "Logged out"] ∧
      (handleLogoutKB true).toasts = [] ∧
      (handleLogoutKB true).uncaught = true ∧
      (handleLogoutLayout false).toasts = [Toast.ok "Logged out"]) ∧
    (∀ st env, ((handleSend st env).2).length ≤ 1) := by
  refine ⟨fun env => ?_, fun env => ?_, fun u p env => ?_, fun f ok m => ?_,
    fun f => ?_, fun file env => ?_, fun ok => ?_, by decide, by decide,
    fun st env => ?_⟩
  · obtain ⟨ne, pa⟩ := env
    cases ne <;> rcases pa with _ | d <;> rfl
  · obtain ⟨ne, pa⟩ := env
    cases ne <;> rcases pa with _ | d <;> rfl
  · obtain ⟨ne, ok, d⟩ := env
    by_cases hg : u = "" ∨ p = "" <;>
      cases ne <;> cases ok <;> rcases d with _ | d <;>
        simp [handleLogin, hg]
  · rcases m with _ | m <;> simp [handleUpload]
  · simp [handleUpload]
  · rcases file with _ | f
    · simp [handleUpload]
    · obtain ⟨ne, ok, m⟩ := env
      cases ne <;> cases ok <;> rcases m with _ | m <;> simp [handleUpload]
  · cases ok <;> simp [handleReindex]
  · unfold handleSend
    by_cases hq : jsTrim st.query = ""
    · rw [if_pos hq]; simp
    · rw [if_neg hq]
      cases sendChatRun env <;> simp

/-- Witness for C4 amended: the login handler toasts at a concrete failing
environment. -/
theorem error_surfacing_amended_witness :
    (handleLogin "admin" "pw" ⟨true, false, none⟩).toasts ≠ [] :=
  (error_surfacing_amended.2.2.1 "admin" "pw" ⟨true, false, none⟩).2.1

/-- C5 fails as stated: the internal chat API route calls the Groq API
through `groq-sdk`, a service other than the external backend's eight
endpoints. -/
theorem external_service_counterexample :
    CallSite.groqChat ∈ allCallSites ∧
    targetsBackend CallSite.groqChat = false ∧
    requestTarget CallSite.groqChat = Service.groqApi := by decide

/-- C5 amended: every `fetch` call site targets one of the eight backend
endpoints; the single exception is the internal chat route, which contacts
the Groq API through `groq-sdk`. -/
theorem endpoint_inventory_amended :
    (∀ s : CallSite, s ≠ CallSite.groqChat → targetsBackend s = true) ∧
    allCallSites.filter (fun s => !(targetsBackend s)) = [CallSite.groqChat] ∧
    requestTarget CallSite.groqChat = Service.groqApi := by decide

/-- Witness for C5 amended: the chat send targets a backend endpoint. -/
theorem endpoint_inventory_amended_witness :
    targetsBackend CallSite.chatSend = true :=
  endpoint_inventory_amended.1 CallSite.chatSend (by decide)

/-- C6 fails as stated: a non-ok upload response whose body cannot be
parsed makes `res.json()` throw uncaught, so no failure toast is shown. -/
theorem upload_toast_counterexample :
    (handleUpload (some "notes.txt") ⟨false, false, none⟩).toasts = [] ∧
    (handleUpload (some "notes.txt") ⟨false, false, none⟩).uncaught = true := by
  decide

/-- C6 amended: a selected file is submitted as multipart form data to
`/kb-upload`; the handler toasts success exactly when the response is ok,
and on a non-ok response whose body parses it toasts failure with the
server's message (or `Unknown error`); but when the fetch throws or the
error body fails to parse, the rejection is uncaught and no toast is
shown. -/
theorem upload_flow_amended (f : String) (env : UploadEnv) :
    (handleUpload (some f) env).requests =
      [⟨"/kb-upload", "POST", [("file", f)]⟩] ∧
    (env.netErr = false → env.ok = true →
      (handleUpload (some f) env).toasts =
        [Toast.ok "✅ File uploaded and indexed"]) ∧
    (env.ok = false → ∀ t,
      (handleUpload (some f) env).toasts ≠ [Toast.ok t]) ∧
    (∀ m, env.netErr = false → env.ok = false → env.message = some m →
      (handleUpload (some f) env).toasts =
        [Toast.err ("❌ Upload failed: " ++ jsOrStr m "Unknown error")]) ∧
    (env.netErr = false → env.ok = false → env.message = none →
      (handleUpload (some f) env).toasts = [] ∧
      (handleUpload (some f) env).uncaught = true) ∧
    (env.netErr = true →
      (handleUpload (some f) env).toasts = [] ∧
      (handleUpload (some f) env).uncaught = true) := by
  obtain ⟨ne, ok, m⟩ := env
  cases ne <;> cases ok <;> rcases m with _ | m <;> simp [handleUpload]

/-- Witness for C6 amended: a parsed error body with no `message` field
toasts `Unknown error`. -/
theorem upload_flow_amended_witness :
    (handleUpload (some "a.txt") ⟨false, false, some none⟩).toasts =
      [Toast.err ("❌ Upload failed: " ++ jsOrStr none "Unknown error")] :=
  (upload_flow_amended "a.txt" ⟨false, false, some none⟩).2.2.2.1
    none rfl rfl rfl

/-- C7: the leads and sync-logs tables render the fetched records verbatim:
one row per record in order, whose cells are exactly the `id`/`name`/
`status` (resp. `job_id`/`status`/`duration`) field values, and the fetch
stores the parsed list unchanged (`null` becoming `[]`). -/
theorem table_render_verbatim (leads : List Lead) (logs : List SyncLog)
    (i : Nat) :
    (leadsRows leads).length = leads.length ∧
    (leadsRows leads)[i]? =
      (leads[i]?).map (fun l => (l.id, l.name, l.status)) ∧
    (syncLogRows logs).length = logs.length ∧
    (syncLogRows logs)[i]? =
      (logs[i]?).map (fun l => (l.job_id, l.status, l.duration)) ∧
    (∀ d : List Lead, (fetchLeads ⟨false, some (some d)⟩).state = some d) ∧
    (∀ d : List SyncLog,
      (fetchSyncLogs ⟨false, some (some d)⟩).state = some d) ∧
    (fetchLeads ⟨false, some none⟩).state = some [] := by
  refine ⟨by simp [leadsRows], by simp [leadsRows], by simp [syncLogRows],
    by simp [syncLogRows], fun d => rfl, fun d => rfl, rfl⟩

/-- C8: an empty-after-trim query leaves everything unchanged; otherwise
when the chat call throws, the history array is left unchanged and only
the user message and the error bot message are appended to the display,
and when the call succeeds the history grows by exactly the one new
pair. -/
theorem chat_failure_preserves_history (st : ChatState)
    (env : NetResult ChatResponse) :
    (jsTrim st.query = "" → handleSend st env = (st, [])) ∧
    (jsTrim st.query ≠ "" →
      (∀ e, sendChatRun env = .error e →
        (handleSend st env).1.history = st.history ∧
        (handleSend st env).1.messages =
          st.messages ++
            [⟨"user", st.query⟩, ⟨"bot", "Error from server."⟩]) ∧
      (∀ r, sendChatRun env = .ok r →
        (handleSend st env).1.history = st.history ++ [(st.query, r.result)])) := by
  constructor
  · intro h
    unfold handleSend
    rw [if_pos h]
  · intro hq
    unfold handleSend
    rw [if_neg hq]
    cases h : sendChatRun env with
    | ok r =>
        exact ⟨fun e he => by simp at he, fun r2 hr2 => by
          simp at hr2
          simp [hr2]⟩
    | error e =>
        exact ⟨fun e2 he2 => ⟨rfl, by simp⟩, fun r2 hr2 => by simp at hr2⟩

/-- Witness for C8 at a concrete state and a rejected fetch. -/
theorem chat_failure_witness :
    (handleSend ⟨"hi", [⟨"user", "old"⟩], "sid", [("old", "resp")]⟩
        NetResult.netErr).1.history = [("old", "resp")] :=
  (((chat_failure_preserves_history
      ⟨"hi", [⟨"user", "old"⟩], "sid", [("old", "resp")]⟩
      NetResult.netErr).2 (by decide)).1 "fetch failed" rfl).1

/-- C9: the internal chat route treats a missing `messages` field as the
empty list, maps each incoming message to `{role, content}` for the Groq
call, answers an absent or empty completion choice with the empty-string
reply, answers success with status 200 and `{role: 'assistant', content:
reply}`, and answers any thrown error with status 500 and `{error: 'Chat
failed'}`. -/
theorem route_post_behavior (b : RouteBody) (c : Completion)
    (cm : Option Completion) :
    (routePOST ⟨some ⟨none⟩, cm⟩).groqMessages = some [] ∧
    (∀ ms cm2, (routePOST ⟨some ⟨some ms⟩, cm2⟩).groqMessages =
      some (ms.map (fun m => (⟨m.role, m.content⟩ : Msg)))) ∧
    replyOf ⟨none⟩ = "" ∧
    replyOf ⟨some []⟩ = "" ∧
    replyOf ⟨some [⟨none⟩]⟩ = "" ∧
    replyOf ⟨some [⟨some ⟨none⟩⟩]⟩ = "" ∧
    replyOf ⟨some [⟨some ⟨some ""⟩⟩]⟩ = "" ∧
    (routePOST ⟨some b, some c⟩).response =
      ⟨200, RouteBodyOut.assistant "assistant" (replyOf c)⟩ ∧
    (routePOST ⟨none, cm⟩).response =
      ⟨500, RouteBodyOut.failure "Chat failed"⟩ ∧
    (routePOST ⟨some b, none⟩).response =
      ⟨500, RouteBodyOut.failure "Chat failed"⟩ := by
  refine ⟨?_, ?_, rfl, rfl, rfl, rfl, rfl, rfl, rfl, rfl⟩
  · rcases cm with _ | c2 <;> rfl
  · intro ms cm2
    rcases cm2 with _ | c2 <;> rfl

/-- C10: an empty username or password makes `handleLogin` toast an error
and send nothing, and a missing file makes `handleUpload` toast an error
and send nothing. -/
theorem empty_input_guards (p u : String) (env : LoginEnv)
    (uenv : UploadEnv) :
    (handleLogin "" p env).requests = [] ∧
    (handleLogin "" p env).toasts =
      [Toast.err "Please enter username and password"] ∧
    (handleLogin u "" env).requests = [] ∧
    (handleLogin u "" env).toasts =
      [Toast.err "Please enter username and password"] ∧
    (handleUpload none uenv).requests = [] ∧
    (handleUpload none uenv).toasts =
      [Toast.err "Please select a file first."] := by
  refine ⟨?_, ?_, ?_, ?_, rfl, rfl⟩ <;> simp [handleLogin]

end AmityBot
